import Mathlib

/-!
Verification of the receipt-processor service (`main.go`).

The Go program is shallowly embedded: the global `receipts` slice becomes an
explicit `List Receipt` state threaded through the handlers, HTTP responses
become small inductive response types, and the fallible parsing primitives
from `strconv` become `Option`-returning functions.

Numeric modelling: `strconv.ParseFloat` values are modelled as exact decimal
fractions `num / den` (`den` a power of ten) read off the digits of the input
string.  The scoring predicates the program applies to those values
(`math.Mod(x, 1) == 0`, `math.Mod(x, 0.25) == 0`, `math.Ceil(x * .2)`) are
exact float64 computations on every input exercised in this development (at
most two fractional digits, small magnitudes), so the exact-fraction model
agrees with the binary-float source on all of them.  String handling is modelled at the character level; the
inputs considered are ASCII, where Go's byte indexing, `len`, and Unicode
classification coincide with the character-level model.
-/

namespace ReceiptProcessor

/-- `item` from main.go: one purchased item (short description and price). -/
structure Item where
  ShortDescription : String
  Price : String
deriving DecidableEq

/-- `receipt` from main.go: a purchase receipt plus the store-assigned `ID`
and the cached `Points` field (zero-valued until computed). -/
structure Receipt where
  Retailer : String
  PurchaseDate : String
  PurchaseTime : String
  Items : List Item
  Total : String
  ID : String
  Points : Int
deriving DecidableEq

/-- Numeric value of a list of decimal digit characters (most significant first). -/
def digitsVal (l : List Char) : Nat :=
  l.foldl (fun a c => a * 10 + (c.toNat - 48)) 0

/-- The exact value of a parsed decimal string: the fraction `num / den`,
where `den` is the power of ten matching the number of fractional digits.
(Not normalized; every consumer works with the fraction directly.) -/
structure GoFloat where
  num : Int
  den : Nat
deriving DecidableEq

/-- Model of `strconv.ParseFloat` on plain decimal notation: an optional sign,
then digits with at most one decimal point and at least one digit overall.
(The exponent/hex/Inf/NaN forms accepted by the source parser are outside the
inputs this development exercises.)  The result is the exact value of the
decimal string, as the fraction `num / den`. -/
def parseFloat (s : String) : Option GoFloat :=
  let (sign, body) : Int × List Char :=
    match s.toList with
    | '-' :: t => (-1, t)
    | '+' :: t => (1, t)
    | t => (1, t)
  match body.splitOn '.' with
  | [ip] =>
      if !ip.isEmpty && ip.all Char.isDigit then
        some ⟨sign * (digitsVal ip : Int), 1⟩
      else none
  | [ip, fp] =>
      if (!ip.isEmpty || !fp.isEmpty) && ip.all Char.isDigit && fp.all Char.isDigit then
        some ⟨sign * ((digitsVal ip * 10 ^ fp.length + digitsVal fp : Nat) : Int), 10 ^ fp.length⟩
      else none
  | _ => none

/-- Model of `strconv.Atoi`: an optional sign followed by one or more digits. -/
def atoi (s : String) : Option Int :=
  let (sign, body) : Int × List Char :=
    match s.toList with
    | '-' :: t => (-1, t)
    | '+' :: t => (1, t)
    | t => (1, t)
  if !body.isEmpty && body.all Char.isDigit then some (sign * (digitsVal body : Int))
  else none

/-- Go string slicing `s[lo:hi]`: `none` models the runtime
"slice bounds out of range" panic raised when `hi > len(s)` (or `lo > hi`). -/
def goSlice (s : String) (lo hi : Nat) : Option String :=
  if lo ≤ hi && hi ≤ s.length then some (String.mk ((s.toList.drop lo).take (hi - lo)))
  else none

/-- The whitespace class of `strings.TrimSpace` (`unicode.IsSpace`), on the
ASCII range: space, tab, newline, vertical tab, form feed, carriage return. -/
def isSpace (c : Char) : Bool :=
  c == ' ' || c == '\t' || c == '\n' || c.toNat == 11 || c.toNat == 12 || c == '\r'

/-- Model of `strings.TrimSpace`: drop leading and trailing whitespace. -/
def trimSpace (s : String) : String :=
  String.mk (((s.toList.dropWhile isSpace).reverse.dropWhile isSpace).reverse)

/-- main.go lines 92-96: one point per letter-or-digit character of the
retailer name (classification restricted to the ASCII range of
`unicode.IsLetter`/`unicode.IsDigit`). -/
def countAlnum (s : String) : Int :=
  ((s.toList.filter fun c => c.isAlpha || c.isDigit).length : Int)

/-- main.go lines 106-108: +50 when `math.Mod(totalFloat, 1) == 0`, i.e. the
total `num / den` is an integral number of dollars (`den` divides `num`). -/
def roundDollarBonus (t : GoFloat) : Int :=
  if Int.emod t.num t.den = 0 then 50 else 0

/-- main.go lines 111-113: +25 when `math.Mod(totalFloat, .25) == 0`, i.e. the
total `num / den` is an exact multiple of a quarter (`den` divides `4 num`). -/
def quarterBonus (t : GoFloat) : Int :=
  if Int.emod (4 * t.num) t.den = 0 then 25 else 0

/-- main.go line 116: `(len(receipt.Items) / 2) * 5`. -/
def itemPairPoints (items : List Item) : Int :=
  ((items.length / 2) * 5 : Nat)

/-- main.go line 131: `int(math.Ceil(priceFloat * .2))` — the ceiling of one
fifth of the exact price `num / den`, namely `ceil(num / (5 den))`. -/
def ceilFifth (price : GoFloat) : Int :=
  -(Int.ediv (-price.num) (5 * (price.den : Int)))

/-- main.go lines 121-133: the item loop.  For each item whose
whitespace-trimmed description length is a multiple of 3, the price is parsed
(`none` models the bad-request early return on a parse failure) and
`ceil(price * 0.2)` points are accumulated.  Prices of items that fail the
length test are never parsed. -/
def descriptionPoints : List Item → Option Int
  | [] => some 0
  | it :: rest =>
      if (trimSpace it.ShortDescription).length % 3 = 0 then
        match parseFloat it.Price with
        | none => none
        | some price => (descriptionPoints rest).map fun tail => ceilFifth price + tail
      else descriptionPoints rest

/-- main.go lines 142-144: +6 when `dayInt%2 == 1` (Go `%` truncates,
hence `Int.tmod`). -/
def dayBonus (day : Int) : Int :=
  if Int.tmod day 2 = 1 then 6 else 0

/-- main.go lines 153-155: +10 when the parsed hour is 14 or 15. -/
def hourBonus (hour : Int) : Int :=
  if hour = 14 ∨ hour = 15 then 10 else 0

/-- Outcome of the scoring part of `getPoints` (main.go lines 89-158). -/
inductive ComputeResult where
  /-- The points total was computed. -/
  | ok (points : Int)
  /-- An early `http.StatusBadRequest` return with the given message. -/
  | badRequest (msg : String)
  /-- A slice-bounds panic (recovered by the framework's recovery middleware,
  surfaced as an internal server error, not as a client-input error). -/
  | recoveredPanic
deriving DecidableEq

/-- main.go lines 89-158: the scoring pipeline of `getPoints`, in source
order — retailer characters, total parse and its two bonuses, the item-pair
bonus, the item loop, the date substring and odd-day bonus, the time substring
and afternoon bonus.  Each `match` arm mirrors the corresponding early
return. -/
def computePoints (r : Receipt) : ComputeResult :=
  match parseFloat r.Total with
  | none => .badRequest "Unable to calculate points (invalid total)"
  | some totalFloat =>
    match descriptionPoints r.Items with
    | none => .badRequest "Unable to calculate points (invalid item price(s))"
    | some descPts =>
      match goSlice r.PurchaseDate 8 10 with
      | none => .recoveredPanic
      | some dayStr =>
        match atoi dayStr with
        | none => .badRequest "Unable to calculate points (invalid date of purchase)"
        | some dayInt =>
          match goSlice r.PurchaseTime 0 2 with
          | none => .recoveredPanic
          | some hourStr =>
            match atoi hourStr with
            | none => .badRequest "Unable to calculate points (invalid time of purchase)"
            | some hourInt =>
              .ok (countAlnum r.Retailer + roundDollarBonus totalFloat +
                   quarterBonus totalFloat + itemPairPoints r.Items + descPts +
                   dayBonus dayInt + hourBonus hourInt)

/-- Response of the points endpoint. -/
inductive PointsResponse where
  /-- `http.StatusNotFound`, "No receipt found for that id". -/
  | notFound
  /-- `http.StatusOK` with the points total. -/
  | ok (points : Int)
  /-- `http.StatusBadRequest` with the given message. -/
  | badRequest (msg : String)
  /-- A recovered slice-bounds panic (internal server error). -/
  | recoveredPanic
deriving DecidableEq

/-- Response of the submission endpoint. -/
inductive SubmitResponse where
  /-- `http.StatusOK` with the generated id. -/
  | ok (id : String)
  /-- `http.StatusBadRequest`, "The receipt is invalid". -/
  | badRequest (msg : String)
deriving DecidableEq

/-- main.go lines 163-172, `getReceiptById`: scan the store in order and
return the first receipt whose `ID` matches, together with its index (the
index stands for the pointer `&receipts[i]` through which the caller mutates
the record). -/
def getReceiptById : List Receipt → String → Option (Nat × Receipt)
  | [], _ => none
  | r :: rest, id =>
      if r.ID = id then some (0, r)
      else (getReceiptById rest id).map fun p => (p.1 + 1, p.2)

/-- The fields a submitted JSON payload may carry.  `none` means the key is
absent from the JSON object, in which case `json.Unmarshal` leaves the
corresponding struct field untouched. -/
structure Payload where
  retailer : Option String := none
  purchaseDate : Option String := none
  purchaseTime : Option String := none
  items : Option (List Item) := none
  total : Option String := none
  id : Option String := none
  points : Option Int := none
deriving DecidableEq

/-- The zero-valued `receipt` struct after main.go lines 53-57: every field
empty except `ID`, which was pre-assigned the generated identifier. -/
def initialReceipt (newId : String) : Receipt :=
  { Retailer := "", PurchaseDate := "", PurchaseTime := "", Items := [],
    Total := "", ID := newId, Points := 0 }

/-- `context.BindJSON(&newReceipt)` on a successfully deserialized payload:
each field present in the JSON overwrites the struct field, absent fields keep
their prior value (in particular the pre-assigned `ID`). -/
def bindJSON (base : Receipt) (p : Payload) : Receipt :=
  { Retailer := p.retailer.getD base.Retailer,
    PurchaseDate := p.purchaseDate.getD base.PurchaseDate,
    PurchaseTime := p.purchaseTime.getD base.PurchaseTime,
    Items := p.items.getD base.Items,
    Total := p.total.getD base.Total,
    ID := p.id.getD base.ID,
    Points := p.points.getD base.Points }

/-- main.go lines 52-71, `processReceipt`: generate an id (passed in as
`newId`, standing for `uuid.NewString()`), pre-assign it, bind the JSON
payload (`none` models a `BindJSON` failure: bad request, nothing stored),
append the bound receipt to the store and return the generated id. -/
def processReceipt (newId : String) (payload : Option Payload) (s : List Receipt) :
    SubmitResponse × List Receipt :=
  match payload with
  | none => (.badRequest "The receipt is invalid", s)
  | some p => (.ok newId, s ++ [bindJSON (initialReceipt newId) p])

/-- main.go lines 74-160, `getPoints`: look the id up; on a miss answer
NotFound; if `Points != 0` answer the cached value; otherwise run the scoring
pipeline, and on success store the total into the receipt's `Points` field.
The boolean records whether the scoring pipeline ran (false on the cache hit
and on the NotFound path). -/
def getPoints (s : List Receipt) (id : String) : PointsResponse × List Receipt × Bool :=
  match getReceiptById s id with
  | none => (.notFound, s, false)
  | some (i, r) =>
      if r.Points ≠ 0 then (.ok r.Points, s, false)
      else
        match computePoints r with
        | .ok total => (.ok total, s.set i { r with Points := total }, true)
        | .badRequest msg => (.badRequest msg, s, true)
        | .recoveredPanic => (.recoveredPanic, s, true)

example : parseFloat "9.00" = some ⟨900, 100⟩ := by decide
example : parseFloat "abc" = none := by decide
example : parseFloat "35.35" = some ⟨3535, 100⟩ := by decide
example : atoi "01" = some 1 := by decide
example : goSlice "2022-01-01" 8 10 = some "01" := by decide
example : goSlice "2022" 8 10 = none := by decide
example : ceilFifth ⟨1225, 100⟩ = 3 := by decide

/-- Sanity fixture: the canonical Target receipt scores 28. -/
def targetReceipt : Receipt :=
  { Retailer := "Target", PurchaseDate := "2022-01-01", PurchaseTime := "13:01",
    Items := [
      { ShortDescription := "Mountain Dew 12PK", Price := "6.49" },
      { ShortDescription := "Emils Cheese Pizza", Price := "12.25" },
      { ShortDescription := "Knorr Creamy Chicken", Price := "1.26" },
      { ShortDescription := "Doritos Nacho Cheese", Price := "3.35" },
      { ShortDescription := "   Klarbrunn 12-PK 12 FL OZ  ", Price := "12.00" }],
    Total := "35.35", ID := "fixture", Points := 0 }

example : computePoints targetReceipt = .ok 28 := by decide

/-! ### Lemmas about the store lookup -/

theorem getReceiptById_nil (id : String) : getReceiptById [] id = none := rfl

theorem getReceiptById_cons (a : Receipt) (t : List Receipt) (id : String) :
    getReceiptById (a :: t) id =
      if a.ID = id then some (0, a)
      else (getReceiptById t id).map fun p => (p.1 + 1, p.2) := rfl

theorem getReceiptById_some_spec (s : List Receipt) (id : String) (i : Nat) (r : Receipt)
    (h : getReceiptById s id = some (i, r)) : s[i]? = some r ∧ r.ID = id := by
  induction s generalizing i with
  | nil => simp [getReceiptById_nil] at h
  | cons a t ih =>
    rw [getReceiptById_cons] at h
    by_cases ha : a.ID = id
    · rw [if_pos ha] at h
      simp only [Option.some.injEq, Prod.mk.injEq] at h
      obtain ⟨hi, hr⟩ := h
      subst hi; subst hr
      simpa using ha
    · rw [if_neg ha] at h
      simp only [Option.map_eq_some', Prod.mk.injEq] at h
      obtain ⟨⟨j, rr⟩, hj, hi, hr⟩ := h
      subst hi; subst hr
      simpa using ih j hj

theorem getReceiptById_eq_none (s : List Receipt) (id : String) :
    getReceiptById s id = none ↔ ∀ x ∈ s, x.ID ≠ id := by
  induction s with
  | nil => simp [getReceiptById_nil]
  | cons a t ih =>
    rw [getReceiptById_cons]
    by_cases ha : a.ID = id <;>
      simp [ha, Option.map_eq_none', ih]

theorem getReceiptById_append (s : List Receipt) (rec : Receipt) (id : String)
    (hfresh : ∀ x ∈ s, x.ID ≠ id) (hrec : rec.ID = id) :
    getReceiptById (s ++ [rec]) id = some (s.length, rec) := by
  induction s with
  | nil => simp [getReceiptById_nil, getReceiptById_cons, hrec]
  | cons a t ih =>
    have ha : a.ID ≠ id := hfresh a (by simp)
    have ih2 := ih fun x hx => hfresh x (by simp [hx])
    rw [List.cons_append, getReceiptById_cons, if_neg ha, ih2]
    simp

theorem getReceiptById_set (s : List Receipt) (id : String) (i : Nat) (r rMod : Receipt)
    (h : getReceiptById s id = some (i, r)) (hid : rMod.ID = r.ID) :
    getReceiptById (s.set i rMod) id = some (i, rMod) := by
  induction s generalizing i with
  | nil => simp [getReceiptById_nil] at h
  | cons a t ih =>
    rw [getReceiptById_cons] at h
    by_cases ha : a.ID = id
    · rw [if_pos ha] at h
      simp only [Option.some.injEq, Prod.mk.injEq] at h
      obtain ⟨hi, hr⟩ := h
      subst hi; subst hr
      have hm : rMod.ID = id := by rw [hid, ha]
      simp [List.set, getReceiptById_cons, hm]
    · rw [if_neg ha] at h
      simp only [Option.map_eq_some', Prod.mk.injEq] at h
      obtain ⟨⟨j, rr⟩, hj, hi, hr⟩ := h
      subst hi; subst hr
      simp [List.set, getReceiptById_cons, ha, ih j hj]

theorem set_self_of_lookup (s : List Receipt) (i : Nat) (r : Receipt)
    (h : s[i]? = some r) : s.set i r = s := by
  induction s generalizing i with
  | nil => simp at h
  | cons a t ih =>
    cases i with
    | zero => simp_all [List.set]
    | succ j =>
      simp only [List.getElem?_cons_succ] at h
      simp [List.set, ih j h]

/-! ### Lemmas about the scoring pipeline -/

theorem goSlice_eq_some (s : String) (lo hi : Nat) (h1 : lo ≤ hi) (h2 : hi ≤ s.length) :
    goSlice s lo hi = some (String.mk ((s.toList.drop lo).take (hi - lo))) := by
  unfold goSlice
  simp [h1, h2]

theorem computePoints_ok_inv (r : Receipt) (p : Int) (h : computePoints r = .ok p) :
    ∃ t dp ds day ts hourInt,
      parseFloat r.Total = some t ∧ descriptionPoints r.Items = some dp ∧
      goSlice r.PurchaseDate 8 10 = some ds ∧ atoi ds = some day ∧
      goSlice r.PurchaseTime 0 2 = some ts ∧ atoi ts = some hourInt ∧
      p = countAlnum r.Retailer + roundDollarBonus t + quarterBonus t +
          itemPairPoints r.Items + dp + dayBonus day + hourBonus hourInt := by
  unfold computePoints at h
  cases h1 : parseFloat r.Total with
  | none => simp [h1] at h
  | some t =>
    cases h2 : descriptionPoints r.Items with
    | none => simp [h1, h2] at h
    | some dp =>
      cases h3 : goSlice r.PurchaseDate 8 10 with
      | none => simp [h1, h2, h3] at h
      | some ds =>
        cases h4 : atoi ds with
        | none => simp [h1, h2, h3, h4] at h
        | some day =>
          cases h5 : goSlice r.PurchaseTime 0 2 with
          | none => simp [h1, h2, h3, h4, h5] at h
          | some ts =>
            cases h6 : atoi ts with
            | none => simp [h1, h2, h3, h4, h5, h6] at h
            | some hourInt =>
              simp only [h1, h2, h3, h4, h5, h6, ComputeResult.ok.injEq] at h
              exact ⟨t, dp, ds, day, ts, hourInt, rfl, rfl, rfl, h4, rfl, h6, h.symm⟩

theorem computePoints_ok_of (r : Receipt) (t : GoFloat) (dp : Int) (ds : String) (day : Int)
    (ts : String) (hourInt : Int)
    (h1 : parseFloat r.Total = some t) (h2 : descriptionPoints r.Items = some dp)
    (h3 : goSlice r.PurchaseDate 8 10 = some ds) (h4 : atoi ds = some day)
    (h5 : goSlice r.PurchaseTime 0 2 = some ts) (h6 : atoi ts = some hourInt) :
    computePoints r = .ok (countAlnum r.Retailer + roundDollarBonus t + quarterBonus t +
      itemPairPoints r.Items + dp + dayBonus day + hourBonus hourInt) := by
  unfold computePoints
  simp [h1, h2, h3, h4, h5, h6]

theorem computePoints_no_panic (r : Receipt)
    (hd : 10 ≤ r.PurchaseDate.length) (ht : 2 ≤ r.PurchaseTime.length) :
    computePoints r ≠ .recoveredPanic := by
  obtain ⟨ds, hds⟩ : ∃ ds, goSlice r.PurchaseDate 8 10 = some ds :=
    ⟨_, goSlice_eq_some r.PurchaseDate 8 10 (by omega) hd⟩
  obtain ⟨ts, hts⟩ : ∃ ts, goSlice r.PurchaseTime 0 2 = some ts :=
    ⟨_, goSlice_eq_some r.PurchaseTime 0 2 (by omega) ht⟩
  intro hcontra
  unfold computePoints at hcontra
  cases h1 : parseFloat r.Total with
  | none => simp [h1] at hcontra
  | some t =>
    cases h2 : descriptionPoints r.Items with
    | none => simp [h1, h2] at hcontra
    | some dp =>
      cases h4 : atoi ds with
      | none => simp [h1, h2, hds, h4] at hcontra
      | some day =>
        cases h6 : atoi ts with
        | none => simp [h1, h2, hds, h4, hts, h6] at hcontra
        | some hourInt => simp [h1, h2, hds, h4, hts, h6] at hcontra

/-! ### Concrete fixtures used by the claims -/

/-- A submission payload that supplies its own `id` field. -/
def payloadWithId : Payload := { id := some "evil" }

/-- A stored receipt whose genuinely-correct score is zero: no alphanumeric
retailer characters, a total that is neither round nor a quarter multiple, no
items, an even purchase day, a morning purchase hour. -/
def zeroScoreReceipt : Receipt :=
  { Retailer := " ", PurchaseDate := "2022-01-02", PurchaseTime := "13:00",
    Items := [], Total := "0.10", ID := "z", Points := 0 }

/-- A stored receipt whose points have already been computed and cached. -/
def cachedReceipt : Receipt :=
  { Retailer := "M", PurchaseDate := "2022-01-01", PurchaseTime := "13:01",
    Items := [], Total := "1.00", ID := "c", Points := 7 }

/-- A second cached receipt. -/
def cachedReceipt2 : Receipt :=
  { Retailer := "MM", PurchaseDate := "2022-01-01", PurchaseTime := "13:01",
    Items := [], Total := "2.00", ID := "c2", Points := 42 }

/-- A stored receipt whose purchaseDate is shorter than the 10 bytes the
fixed-layout substring extraction `PurchaseDate[8:10]` assumes. -/
def shortDateReceipt : Receipt :=
  { Retailer := "M", PurchaseDate := "2022", PurchaseTime := "13:01",
    Items := [], Total := "1.00", ID := "d", Points := 0 }

/-- A stored receipt whose purchaseDate has the full 10 characters but whose
day substring "GH" is not a number. -/
def badDateReceipt : Receipt :=
  { Retailer := "x", PurchaseDate := "ABCD-EF-GH", PurchaseTime := "13:01",
    Items := [], Total := "1.00", ID := "bd", Points := 0 }

/-- A receipt with an unparseable price on an item whose trimmed description
length (1) is not a multiple of 3: the item loop never parses that price. -/
def skippedPriceReceipt : Receipt :=
  { Retailer := "", PurchaseDate := "2022-01-01", PurchaseTime := "13:01",
    Items := [{ ShortDescription := "a", Price := "abc" }], Total := "1.00",
    ID := "r4", Points := 0 }

/-- A receipt with an unparseable price on an item whose trimmed description
length (3) is a multiple of 3. -/
def badPriceReceipt : Receipt :=
  { Retailer := "", PurchaseDate := "2022-01-01", PurchaseTime := "13:01",
    Items := [{ ShortDescription := "abc", Price := "abc" }], Total := "1.00",
    ID := "w4", Points := 0 }

/-- A receipt purchased at "14:37", used to exercise the afternoon bonus. -/
def afternoonReceipt : Receipt :=
  { Retailer := "abc", PurchaseDate := "2022-01-01", PurchaseTime := "14:37",
    Items := [], Total := "1.10", ID := "c8", Points := 0 }

/-- A receipt with total "9.00" and no other scoring contribution. -/
def roundQuarterReceipt : Receipt :=
  { Retailer := " ", PurchaseDate := "2022-01-02", PurchaseTime := "13:00",
    Items := [], Total := "9.00", ID := "c9", Points := 0 }

/-- An all-whitespace description (trims to length 0). -/
def wsItem : Item := { ShortDescription := "   ", Price := "12.00" }

/-- A three-character description with the same price. -/
def len3Item : Item := { ShortDescription := "abc", Price := "12.00" }

/-! ### Claim C1 -/

/-- **C1, counterexample.** The claim is false as stated: the generated
identifier is assigned to the record *before* `BindJSON` runs, so a payload
that itself carries an `id` field overwrites the stored record's id with the
client-supplied value.  Submitting such a payload returns the generated id
"u1", yet the stored record's id is the client's "evil", and a get-points
query with the returned identifier yields NotFound. -/
theorem C1_counterexample :
    (processReceipt "u1" (some payloadWithId) []).1 = .ok "u1" ∧
    (processReceipt "u1" (some payloadWithId) []).2.map Receipt.ID = ["evil"] ∧
    getReceiptById (processReceipt "u1" (some payloadWithId) []).2 "u1" = none ∧
    (getPoints (processReceipt "u1" (some payloadWithId) []).2 "u1").1 = .notFound := by
  decide

/-- **C1, amended.** For every accepted submission whose payload does not
supply an `id` field, the identifier returned by the submit operation is
exactly the identifier under which the receipt is retrievable: the stored
record's id is the store-assigned identifier and (provided the generated
identifier is fresh) a get-points query with it finds the record; an
identifier matching no stored receipt's id always yields NotFound. -/
theorem C1_amended (newId : String) (p : Payload) (s : List Receipt)
    (hid : p.id = none) (hfresh : ∀ x ∈ s, x.ID ≠ newId) :
    processReceipt newId (some p) s = (.ok newId, s ++ [bindJSON (initialReceipt newId) p]) ∧
    (bindJSON (initialReceipt newId) p).ID = newId ∧
    getReceiptById (s ++ [bindJSON (initialReceipt newId) p]) newId =
      some (s.length, bindJSON (initialReceipt newId) p) ∧
    (getPoints (s ++ [bindJSON (initialReceipt newId) p]) newId).1 ≠ .notFound ∧
    ∀ other, (∀ x ∈ s ++ [bindJSON (initialReceipt newId) p], x.ID ≠ other) →
      getReceiptById (s ++ [bindJSON (initialReceipt newId) p]) other = none := by
  have hrecId : (bindJSON (initialReceipt newId) p).ID = newId := by
    simp [bindJSON, initialReceipt, hid]
  have hlook := getReceiptById_append s (bindJSON (initialReceipt newId) p) newId hfresh hrecId
  refine ⟨rfl, hrecId, hlook, ?_, ?_⟩
  · unfold getPoints
    simp only [hlook]
    by_cases hp : (bindJSON (initialReceipt newId) p).Points ≠ 0
    · rw [if_pos hp]; simp
    · rw [if_neg hp]
      cases hc : computePoints (bindJSON (initialReceipt newId) p) <;> simp
  · intro other hother
    exact (getReceiptById_eq_none _ other).mpr hother

/-- Closed witness for `C1_amended`, at a payload with no `id` field and an
empty store. -/
theorem C1_amended_witness :
    (getPoints (processReceipt "w1" (some {}) []).2 "w1").1 ≠ .notFound := by
  obtain ⟨h1, h2, h3, h4, h5⟩ := C1_amended "w1" {} [] rfl (by intro x hx; cases hx)
  rw [h1]
  exact h4

/-! ### Claim C2 -/

/-- **C2, counterexample.** The claim is false as stated: for a stored receipt
whose genuinely-correct score is zero, both queries do return the identical
integer 0, but the zero value is indistinguishable from the "not yet
computed" sentinel, so the second query runs the scoring pipeline again (the
recompute flag is `true` on both calls). -/
theorem C2_counterexample :
    getPoints [zeroScoreReceipt] "z" = (.ok 0, [zeroScoreReceipt], true) ∧
    getPoints (getPoints [zeroScoreReceipt] "z").2.1 "z" = (.ok 0, [zeroScoreReceipt], true) := by
  decide

/-- **C2, amended.** Querying points for the same identifier twice returns
the identical integer both times and leaves the state unchanged; the second
query skips recomputation exactly when the value is nonzero — a computed zero
leaves the sentinel in place, so the second query recomputes (returning the
same 0 deterministically). -/
theorem C2_amended (s : List Receipt) (id : String) (v : Int) (s1 : List Receipt) (b : Bool)
    (h : getPoints s id = (.ok v, s1, b)) :
    getPoints s1 id = (.ok v, s1, decide (v = 0)) := by
  unfold getPoints at h
  cases hfind : getReceiptById s id with
  | none => simp [hfind] at h
  | some ir =>
    obtain ⟨i, r⟩ := ir
    simp only [hfind] at h
    by_cases hp : r.Points ≠ 0
    · rw [if_pos hp] at h
      simp only [Prod.mk.injEq, PointsResponse.ok.injEq] at h
      obtain ⟨hv, hs, hb⟩ := h
      subst hv; subst hs
      unfold getPoints
      simp only [hfind]
      rw [if_pos hp]
      simp [hp]
    · rw [if_neg hp] at h
      have hp0 : r.Points = 0 := not_not.mp hp
      cases hc : computePoints r with
      | ok total =>
        simp only [hc, Prod.mk.injEq, PointsResponse.ok.injEq] at h
        obtain ⟨hv, hs, hb⟩ := h
        by_cases hz : total = 0
        · subst hz
          have hrr : { r with Points := (0 : Int) } = r := by
            rw [← hp0]
          have hspec := getReceiptById_some_spec s id i r hfind
          have hset : s.set i { r with Points := (0 : Int) } = s := by
            rw [hrr]; exact set_self_of_lookup s i r hspec.1
          rw [hset] at hs
          subst hs
          subst hv
          unfold getPoints
          simp only [hfind]
          rw [if_neg hp]
          simp only [hc]
          rw [hset]
          simp
        · subst hv; subst hs
          have hlook1 : getReceiptById (s.set i { r with Points := total }) id =
              some (i, { r with Points := total }) :=
            getReceiptById_set s id i r { r with Points := total } hfind (by simp)
          unfold getPoints
          simp only [hlook1]
          rw [if_pos (show ({ r with Points := total } : Receipt).Points ≠ 0 from hz)]
          simp [hz]
      | badRequest msg => simp [hc] at h
      | recoveredPanic => simp [hc] at h

/-- Closed witness for `C2_amended`, at a receipt with a cached nonzero
score. -/
theorem C2_amended_witness :
    getPoints [cachedReceipt2] "c2" = (.ok 42, [cachedReceipt2], false) := by
  have h := C2_amended [cachedReceipt2] "c2" 42 [cachedReceipt2] false (by decide)
  simpa using h

/-! ### Claim C3 -/

/-- **C3, counterexample.** The claim is false as stated: a stored receipt
whose purchaseDate is shorter than 10 bytes is unscoreable, yet the query
does not yield a client-input error — the fixed-layout substring extraction
`PurchaseDate[8:10]` panics (the framework's recovery middleware turns the
panic into an internal server error). -/
theorem C3_counterexample :
    getPoints [shortDateReceipt] "d" = (.recoveredPanic, [shortDateReceipt], true) ∧
    ∀ msg, (getPoints [shortDateReceipt] "d").1 ≠ .badRequest msg := by
  refine ⟨by decide, ?_⟩
  intro msg
  have h : getPoints [shortDateReceipt] "d" = (.recoveredPanic, [shortDateReceipt], true) := by
    decide
  rw [h]
  simp

/-- **C3, amended.** For every stored receipt whose purchaseDate is at least
10 characters and purchaseTime at least 2 (so that the fixed-layout substring
extractions are in range), a get-points query never panics; and when the
scoring runs, it yields a client-input error response — never a crash and
never a silent zero score — exactly when the receipt is unscoreable, i.e.
when the total, a price reached by the item loop, the day substring, or the
hour substring fails to parse; when all of them parse, the query returns a
computed score.  (With a shorter purchaseDate or purchaseTime the query
panics, as the counterexample shows; the panic is recovered by the framework,
so the process itself survives either way.) -/
theorem C3_amended (s : List Receipt) (id : String) (i : Nat) (r : Receipt)
    (hfind : getReceiptById s id = some (i, r))
    (hd : 10 ≤ r.PurchaseDate.length) (ht : 2 ≤ r.PurchaseTime.length) :
    (getPoints s id).1 ≠ .recoveredPanic ∧
    (r.Points = 0 →
      (parseFloat r.Total = none ∨ descriptionPoints r.Items = none ∨
       (goSlice r.PurchaseDate 8 10).bind atoi = none ∨
       (goSlice r.PurchaseTime 0 2).bind atoi = none) →
      ∃ msg, (getPoints s id).1 = .badRequest msg) ∧
    (r.Points = 0 →
      ¬(parseFloat r.Total = none ∨ descriptionPoints r.Items = none ∨
        (goSlice r.PurchaseDate 8 10).bind atoi = none ∨
        (goSlice r.PurchaseTime 0 2).bind atoi = none) →
      ∃ p, (getPoints s id).1 = .ok p) := by
  refine ⟨?_, ?_, ?_⟩
  · unfold getPoints
    simp only [hfind]
    by_cases hp : r.Points ≠ 0
    · rw [if_pos hp]; simp
    · rw [if_neg hp]
      cases hc : computePoints r with
      | ok total => simp
      | badRequest msg => simp
      | recoveredPanic => exact absurd hc (computePoints_no_panic r hd ht)
  · intro hp0 hbad
    unfold getPoints
    simp only [hfind]
    rw [if_neg (show ¬r.Points ≠ 0 from by simp [hp0])]
    cases hc : computePoints r with
    | ok total =>
      exfalso
      obtain ⟨t, dp, ds0, day0, ts0, hr0, k1, k2, k3, k4, k5, k6, _⟩ :=
        computePoints_ok_inv r total hc
      rcases hbad with hA | hB | hC | hD
      · rw [k1] at hA; simp at hA
      · rw [k2] at hB; simp at hB
      · rw [k3] at hC
        simp only [Option.some_bind] at hC
        rw [k4] at hC; simp at hC
      · rw [k5] at hD
        simp only [Option.some_bind] at hD
        rw [k6] at hD; simp at hD
    | badRequest msg => exact ⟨msg, rfl⟩
    | recoveredPanic => exact absurd hc (computePoints_no_panic r hd ht)
  · intro hp0 hgood
    push_neg at hgood
    obtain ⟨hA, hB, hC, hD⟩ := hgood
    obtain ⟨dsv, hds⟩ : ∃ ds, goSlice r.PurchaseDate 8 10 = some ds :=
      ⟨_, goSlice_eq_some r.PurchaseDate 8 10 (by omega) hd⟩
    obtain ⟨tsv, hts⟩ : ∃ ts, goSlice r.PurchaseTime 0 2 = some ts :=
      ⟨_, goSlice_eq_some r.PurchaseTime 0 2 (by omega) ht⟩
    rw [hds] at hC
    simp only [Option.some_bind] at hC
    rw [hts] at hD
    simp only [Option.some_bind] at hD
    cases hT : parseFloat r.Total with
    | none => exact absurd hT hA
    | some t =>
      cases hDP : descriptionPoints r.Items with
      | none => exact absurd hDP hB
      | some dp =>
        cases hday : atoi dsv with
        | none => exact absurd hday hC
        | some day =>
          cases hhour : atoi tsv with
          | none => exact absurd hhour hD
          | some hourv =>
            have hok := computePoints_ok_of r t dp dsv day tsv hourv hT hDP hds hday hts hhour
            unfold getPoints
            simp only [hfind]
            rw [if_neg (show ¬r.Points ≠ 0 from by simp [hp0])]
            simp only [hok]
            exact ⟨_, rfl⟩

/-- Closed witness for `C3_amended`, at a stored receipt whose purchaseDate
"ABCD-EF-GH" has the full 10 characters but an unparseable day substring: the
query answers with a client-input error, not a panic and not a score. -/
theorem C3_amended_witness :
    ∃ msg, (getPoints [badDateReceipt] "bd").1 = .badRequest msg := by
  obtain ⟨h1, h2, h3⟩ :=
    C3_amended [badDateReceipt] "bd" 0 badDateReceipt (by decide) (by decide) (by decide)
  exact h2 (by decide) (Or.inr (Or.inr (Or.inl (by decide))))

/-! ### Claim C4 -/

theorem descriptionPoints_none_of_bad (items : List Item) (it : Item) (hmem : it ∈ items)
    (hlen : (trimSpace it.ShortDescription).length % 3 = 0)
    (hbad : parseFloat it.Price = none) :
    descriptionPoints items = none := by
  induction items with
  | nil => cases hmem
  | cons a rest ih =>
    cases List.mem_cons.mp hmem with
    | inl heq =>
      subst heq
      simp only [descriptionPoints]
      rw [if_pos hlen, hbad]
    | inr hmem2 =>
      simp only [descriptionPoints]
      by_cases ha : (trimSpace a.ShortDescription).length % 3 = 0
      · rw [if_pos ha]
        cases hpa : parseFloat a.Price with
        | none => rfl
        | some pa => simp [ih hmem2]
      · rw [if_neg ha]; exact ih hmem2

/-- **C4, counterexample.** The claim is false as stated: an item price is
only parsed when the item's trimmed description length is a multiple of 3.
A stored receipt with the single item ("a", "abc") has an unparseable price,
yet the query succeeds with a full score (81) instead of failing with the
client-input error. -/
theorem C4_counterexample :
    parseFloat ({ ShortDescription := "a", Price := "abc" } : Item).Price = none ∧
    getPoints [skippedPriceReceipt] "r4" =
      (.ok 81, [{ skippedPriceReceipt with Points := 81 }], true) := by
  decide

/-- **C4, amended.** For every get-points query on a stored receipt whose
total parses and in which some item has a trimmed description length that is
a multiple of 3 and a price that cannot be parsed, the computation fails fast
with the UnscoreableReceipt client-input error and no partial score is
returned (the store is unchanged).  An item whose trimmed description length
is not a multiple of 3 never has its price examined. -/
theorem C4_amended (s : List Receipt) (id : String) (i : Nat) (r : Receipt)
    (hfind : getReceiptById s id = some (i, r)) (hp0 : r.Points = 0)
    (t : GoFloat) (htotal : parseFloat r.Total = some t)
    (it : Item) (hmem : it ∈ r.Items)
    (hlen : (trimSpace it.ShortDescription).length % 3 = 0)
    (hbad : parseFloat it.Price = none) :
    getPoints s id = (.badRequest "Unable to calculate points (invalid item price(s))", s, true) := by
  have hdesc : descriptionPoints r.Items = none :=
    descriptionPoints_none_of_bad r.Items it hmem hlen hbad
  have hc : computePoints r =
      .badRequest "Unable to calculate points (invalid item price(s))" := by
    unfold computePoints
    simp [htotal, hdesc]
  unfold getPoints
  simp only [hfind]
  rw [if_neg (show ¬r.Points ≠ 0 from by simp [hp0])]
  simp [hc]

/-- Closed witness for `C4_amended`, at a stored receipt with the single item
("abc", "abc"). -/
theorem C4_amended_witness :
    getPoints [badPriceReceipt] "w4" =
      (.badRequest "Unable to calculate points (invalid item price(s))", [badPriceReceipt], true) := by
  exact C4_amended [badPriceReceipt] "w4" 0 badPriceReceipt (by decide) (by decide)
    ⟨100, 100⟩ (by decide) { ShortDescription := "abc", Price := "abc" } (by decide)
    (by decide) (by decide)

/-! ### Claim C5 -/

/-- **C5.** If a submission payload includes a nonzero `points` field, the
stored receipt carries that client-supplied value (`BindJSON` deserializes
the `points` key straight into the struct), and a get-points query for the
stored record's identifier returns that value unchanged, without running the
scoring pipeline (recompute flag `false`) and without touching the store. -/
theorem C5 (newId : String) (p : Payload) (s : List Receipt) (v : Int)
    (hv : p.points = some v) (hnz : v ≠ 0)
    (hfresh : ∀ x ∈ s, x.ID ≠ (bindJSON (initialReceipt newId) p).ID) :
    processReceipt newId (some p) s = (.ok newId, s ++ [bindJSON (initialReceipt newId) p]) ∧
    (bindJSON (initialReceipt newId) p).Points = v ∧
    getPoints (s ++ [bindJSON (initialReceipt newId) p]) (bindJSON (initialReceipt newId) p).ID =
      (.ok v, s ++ [bindJSON (initialReceipt newId) p], false) := by
  have hpts : (bindJSON (initialReceipt newId) p).Points = v := by simp [bindJSON, hv]
  refine ⟨rfl, hpts, ?_⟩
  have hlook := getReceiptById_append s (bindJSON (initialReceipt newId) p)
    (bindJSON (initialReceipt newId) p).ID hfresh rfl
  unfold getPoints
  simp only [hlook]
  rw [if_pos (show (bindJSON (initialReceipt newId) p).Points ≠ 0 from by rw [hpts]; exact hnz)]
  rw [hpts]

/-- Closed witness for `C5`, at a payload carrying `points := 5`. -/
theorem C5_witness :
    getPoints (processReceipt "w5" (some { points := some 5 }) []).2 "w5" =
      (.ok 5, (processReceipt "w5" (some { points := some 5 }) []).2, false) := by
  have h := C5 "w5" { points := some 5 } [] 5 rfl (by decide) (by intro x hx; cases hx)
  exact h.2.2

/-! ### Claim C6 -/

/-- **C6.** An item whose description trims to length 0 (empty or
all-whitespace) receives the description-length bonus of `ceil(price * 0.2)`
exactly like any item whose trimmed length is a multiple of 3: the literal
`% 3 == 0` check fires at length 0, there is no `length > 0` guard. -/
theorem C6 (it it3 : Item) (rest : List Item) (pr : GoFloat)
    (h0 : (trimSpace it.ShortDescription).length = 0)
    (h3 : (trimSpace it3.ShortDescription).length % 3 = 0)
    (hp : parseFloat it.Price = some pr) (hp3 : parseFloat it3.Price = some pr) :
    descriptionPoints (it :: rest) =
      (descriptionPoints rest).map (fun tail => ceilFifth pr + tail) ∧
    descriptionPoints (it :: rest) = descriptionPoints (it3 :: rest) := by
  have hz : (trimSpace it.ShortDescription).length % 3 = 0 := by rw [h0]
  constructor
  · simp only [descriptionPoints]
    rw [if_pos hz, hp]
  · simp only [descriptionPoints]
    rw [if_pos hz, hp, if_pos h3, hp3]

/-- Closed witness for `C6`: the all-whitespace description "   " earns the
same bonus (`ceil(12.00 * 0.2) = 3`) as the three-character description
"abc". -/
theorem C6_witness :
    descriptionPoints [wsItem] = some 3 ∧
    descriptionPoints [wsItem] = descriptionPoints [len3Item] := by
  obtain ⟨h1, h2⟩ := C6 wsItem len3Item [] ⟨1200, 100⟩ (by decide) (by decide)
    (by decide) (by decide)
  refine ⟨?_, h2⟩
  rw [h1]
  decide

/-! ### Claim C7 -/

/-- **C7.** A submission whose payload does not deserialize into the receipt
shape is rejected immediately with the client-input error, and no record is
stored: the store after the failed submission is exactly the store before
it. -/
theorem C7 (newId : String) (s : List Receipt) :
    processReceipt newId none s = (.badRequest "The receipt is invalid", s) := rfl

/-! ### Claim C8 -/

/-- **C8.** For every receipt whose points compute successfully and whose
purchaseTime yields a parsed hour, the afternoon bonus contributes exactly
+10 when that hour is 14 or 15 and 0 otherwise, minutes being irrelevant:
with every other field fixed, replacing the purchase time by "14:00" or
"15:59" scores `base + 10`, and replacing it by "13:59" or "16:00" scores
`base`, where `base` is the contribution of all other rules. -/
theorem C8 (r : Receipt) (p : Int) (hourInt : Int)
    (hok : computePoints r = .ok p)
    (hhour : (goSlice r.PurchaseTime 0 2).bind atoi = some hourInt) :
    ∃ base, p = base + hourBonus hourInt ∧
      hourBonus hourInt = (if hourInt = 14 ∨ hourInt = 15 then 10 else 0) ∧
      computePoints { r with PurchaseTime := "14:00" } = .ok (base + 10) ∧
      computePoints { r with PurchaseTime := "13:59" } = .ok base ∧
      computePoints { r with PurchaseTime := "15:59" } = .ok (base + 10) ∧
      computePoints { r with PurchaseTime := "16:00" } = .ok base := by
  obtain ⟨t, dp, ds, day, ts, hr2, h1, h2, h3, h4, h5, h6, hsum⟩ :=
    computePoints_ok_inv r p hok
  rw [h5] at hhour
  simp only [Option.some_bind] at hhour
  rw [h6] at hhour
  simp only [Option.some.injEq] at hhour
  subst hhour
  refine ⟨countAlnum r.Retailer + roundDollarBonus t + quarterBonus t +
    itemPairPoints r.Items + dp + dayBonus day, hsum, rfl, ?_, ?_, ?_, ?_⟩
  · have h := computePoints_ok_of { r with PurchaseTime := "14:00" } t dp ds day "14" 14
      h1 h2 h3 h4 (show goSlice "14:00" 0 2 = some "14" from by decide)
      (show atoi "14" = some 14 from by decide)
    rw [h]
    simp [hourBonus]
  · have h := computePoints_ok_of { r with PurchaseTime := "13:59" } t dp ds day "13" 13
      h1 h2 h3 h4 (show goSlice "13:59" 0 2 = some "13" from by decide)
      (show atoi "13" = some 13 from by decide)
    rw [h]
    simp [hourBonus]
  · have h := computePoints_ok_of { r with PurchaseTime := "15:59" } t dp ds day "15" 15
      h1 h2 h3 h4 (show goSlice "15:59" 0 2 = some "15" from by decide)
      (show atoi "15" = some 15 from by decide)
    rw [h]
    simp [hourBonus]
  · have h := computePoints_ok_of { r with PurchaseTime := "16:00" } t dp ds day "16" 16
      h1 h2 h3 h4 (show goSlice "16:00" 0 2 = some "16" from by decide)
      (show atoi "16" = some 16 from by decide)
    rw [h]
    simp [hourBonus]

/-- Closed witness for `C8`: the "14:37" fixture scores 19, so by `C8` its
"13:59" variant scores the base 9 (retailer 3 + odd day 6, no afternoon
bonus). -/
theorem C8_witness :
    computePoints { afternoonReceipt with PurchaseTime := "13:59" } = .ok 9 := by
  obtain ⟨base, hbase, hb2, h14, h1359, h1559, h1600⟩ :=
    C8 afternoonReceipt 19 14 (by decide) (by decide)
  have hten : hourBonus 14 = 10 := by decide
  rw [hten] at hbase
  have hb : base = 9 := by omega
  rw [h1359, hb]

/-! ### Claim C9 -/

/-- **C9.** For a receipt with total "9.00", the round-dollar rule and the
quarter-multiple rule both apply simultaneously, contributing exactly +50 and
+25 respectively: a receipt contributing under no other rule scores exactly
75. -/
theorem C9 :
    parseFloat "9.00" = some ⟨900, 100⟩ ∧
    roundDollarBonus ⟨900, 100⟩ = 50 ∧ quarterBonus ⟨900, 100⟩ = 25 ∧
    computePoints roundQuarterReceipt = .ok 75 := by
  decide

/-! ### Claim C10 -/

/-- **C10.** Every get-points query on a stored receipt mutates at most the
`Points` field of the single queried receipt and leaves every other stored
receipt (and every other field of the queried one) unchanged; the `Points`
value changes only on the query that first computes a nonzero score (a
receipt whose cached value is nonzero is returned without any state
change). -/
theorem C10 (s : List Receipt) (id : String) (i : Nat) (r : Receipt)
    (hfind : getReceiptById s id = some (i, r)) :
    ((getPoints s id).2.1).length = s.length ∧
    (∀ j, j ≠ i → ((getPoints s id).2.1)[j]? = s[j]?) ∧
    (∃ r1, ((getPoints s id).2.1)[i]? = some r1 ∧ { r1 with Points := r.Points } = r ∧
      (r1 ≠ r → r.Points = 0 ∧ r1.Points ≠ 0 ∧ (getPoints s id).1 = .ok r1.Points)) ∧
    (r.Points ≠ 0 → getPoints s id = (.ok r.Points, s, false)) := by
  have hspec := getReceiptById_some_spec s id i r hfind
  have hi : s[i]? = some r := hspec.1
  unfold getPoints
  simp only [hfind]
  by_cases hp : r.Points ≠ 0
  · rw [if_pos hp]
    refine ⟨rfl, fun j _ => rfl, ⟨r, hi, rfl, fun hne => absurd rfl hne⟩, fun _ => rfl⟩
  · have hp0 : r.Points = 0 := not_not.mp hp
    rw [if_neg hp]
    cases hc : computePoints r with
    | ok total =>
      have hlt : i < s.length := by
        cases hlen : decide (i < s.length) with
        | true => exact of_decide_eq_true hlen
        | false =>
          have : s[i]? = none := List.getElem?_eq_none (by
            have := of_decide_eq_false hlen
            omega)
          rw [this] at hi
          cases hi
      refine ⟨by simp, fun j hj => List.getElem?_set_ne (fun hji => hj hji.symm), ?_, ?_⟩
      · refine ⟨{ r with Points := total }, ?_, ?_, ?_⟩
        · exact List.getElem?_set_eq_of_lt _ hlt
        · rfl
        · intro hne
          refine ⟨hp0, ?_, rfl⟩
          intro h0
          apply hne
          have ht0 : total = 0 := h0
          rw [ht0, ← hp0]
      · intro hcontra
        exact absurd hp0 hcontra
    | badRequest msg =>
      refine ⟨rfl, fun j _ => rfl, ⟨r, hi, rfl, fun hne => absurd rfl hne⟩, ?_⟩
      intro hcontra
      exact absurd hp0 hcontra
    | recoveredPanic =>
      refine ⟨rfl, fun j _ => rfl, ⟨r, hi, rfl, fun hne => absurd rfl hne⟩, ?_⟩
      intro hcontra
      exact absurd hp0 hcontra

/-- Closed witness for `C10`: a query on a receipt with a cached nonzero
score leaves the store entirely unchanged. -/
theorem C10_witness :
    getPoints [cachedReceipt] "c" = (.ok 7, [cachedReceipt], false) := by
  obtain ⟨h1, h2, h3, h4⟩ := C10 [cachedReceipt] "c" 0 cachedReceipt (by decide)
  exact h4 (by decide)

end ReceiptProcessor
